import Mathlib

/-!
Verification of the llumnix global scheduling core
(`llumnix/global_scheduler/migration_scheduler.py` and
`llumnix/global_scheduler/global_scheduler.py`) against its
natural-language specification.

Python floats are modelled by `Load`: a rational value, the two signed
infinities (the fresh-instance sentinel is `-inf`) and `nan`, with the
IEEE-754 comparison semantics the CPython interpreter uses (every
comparison involving `nan` is false).  Python dicts are modelled by
association lists with the insertion-order semantics of CPython
(overwriting keeps position, fresh keys append at the end); Python sets
by `Finset String`.

`instance_info.py`, `dispatch_scheduler.py`, `scale_scheduler.py` and
`config.py` are not part of the sources; the definitions that stand in
for them are marked `Modelled from the spec:` and follow the
specification text only.
-/

/-- Model of a Python float as used by the scheduler: a rational, one of
the two infinities, or `nan`. -/
inductive Load where
  | negInf : Load
  | val : ℚ → Load
  | posInf : Load
  | nan : Load
deriving DecidableEq

/-- IEEE-754 strict less-than on modelled floats: any comparison with
`nan` is false. -/
def Load.ltb : Load → Load → Bool
  | .nan, _ => false
  | _, .nan => false
  | .negInf, .negInf => false
  | .negInf, .val _ => true
  | .negInf, .posInf => true
  | .val _, .negInf => false
  | .val a, .val b => decide (a < b)
  | .val _, .posInf => true
  | .posInf, _ => false

/-- IEEE-754 less-or-equal on modelled floats: any comparison with `nan`
is false. -/
def Load.leb : Load → Load → Bool
  | .nan, _ => false
  | _, .nan => false
  | .negInf, _ => true
  | .val _, .negInf => false
  | .val a, .val b => decide (a ≤ b)
  | .val _, .posInf => true
  | .posInf, .posInf => true
  | .posInf, .negInf => false
  | .posInf, .val _ => false

/-- IEEE-754 subtraction on modelled floats (`inf - inf = nan`). -/
def Load.sub : Load → Load → Load
  | .nan, _ => .nan
  | _, .nan => .nan
  | .val a, .val b => .val (a - b)
  | .val _, .negInf => .posInf
  | .val _, .posInf => .negInf
  | .negInf, .negInf => .nan
  | .negInf, .val _ => .negInf
  | .negInf, .posInf => .negInf
  | .posInf, .posInf => .nan
  | .posInf, .val _ => .posInf
  | .posInf, .negInf => .posInf

/-- IEEE-754 addition on modelled floats (`inf + (-inf) = nan`). -/
def Load.add : Load → Load → Load
  | .nan, _ => .nan
  | _, .nan => .nan
  | .val a, .val b => .val (a + b)
  | .negInf, .posInf => .nan
  | .posInf, .negInf => .nan
  | .negInf, _ => .negInf
  | _, .negInf => .negInf
  | .posInf, _ => .posInf
  | _, .posInf => .posInf

/-- Division of a modelled float by a natural number (used only for the
`avg_load` aggregate); division by zero yields `nan`. -/
def Load.divNat : Load → Nat → Load
  | .nan, _ => .nan
  | _, 0 => .nan
  | .val a, n => .val (a / (n : ℚ))
  | .negInf, _ => .negInf
  | .posInf, _ => .posInf

/-- The two actions the load calculator distinguishes
(`compute_instance_load(info, action)`). -/
inductive LoadAction where
  | dispatch : LoadAction
  | migrate : LoadAction
deriving DecidableEq

/-- The per-instance load record of `instance_info.py`.  The class
itself is not under the sources; its fields are fixed by the spec (§3)
and by the accesses the scheduler sources make.  Counters are Python
ints, the two derived scalars are floats. -/
structure InstanceInfo where
  instance_id : String
  num_running_request : Int
  num_waiting_request : Int
  num_killed_request : Int
  num_total_gpu_block : Int
  num_free_gpu_block : Int
  num_used_gpu_block : Int
  num_block_first_waiting_request : Int
  num_block_last_running_request : Int
  num_batched_tokens : Int
  num_dispatched_request : Int
  instance_load_dispatch_scale : Load
  instance_load_migrate : Load
deriving DecidableEq

/-- Modelled from the spec: `instance_info.py` (InstanceLoadCalculator)
is not under the sources.  The spec (§4.1) fixes only its interface: it
carries the `enable_prefill_migrate` flag and a pure
`compute_instance_load(info, action)` returning a float; the concrete
formula is an implementation choice, so it is kept abstract here. -/
structure InstanceLoadCalculator where
  enable_prefill_migrate : Bool
  compute_instance_load : InstanceInfo → LoadAction → Load

/-- A Python dict from instance id to InstanceInfo, as an
insertion-ordered association list. -/
abbrev InfoDict := List (String × InstanceInfo)

/-- Dict membership / item access: the value at a key, if present. -/
def dictLookup : InfoDict → String → Option InstanceInfo
  | [], _ => none
  | (k, v) :: rest, key => if k = key then some v else dictLookup rest key

/-- Dict item assignment: overwriting an existing key keeps its
position, a fresh key is appended at the end (CPython semantics). -/
def dictInsert : InfoDict → String → InstanceInfo → InfoDict
  | [], key, v => [(key, v)]
  | (k, w) :: rest, key, v =>
      if k = key then (k, v) :: rest else (k, w) :: dictInsert rest key v

/-- Dict item deletion (`del d[key]`). -/
def dictErase (d : InfoDict) (key : String) : InfoDict :=
  d.filter (fun kv => kv.1 != key)

/-- The list of keys of a dict, in insertion order. -/
def dictKeys (d : InfoDict) : List String := d.map Prod.fst

/-- The list of values of a dict, in insertion order (`d.values()`). -/
def dictValues (d : InfoDict) : List InstanceInfo := d.map Prod.snd

/-- `MigrationScheduler._sort_instance_infos`: sort the snapshot's
values by `instance_load_migrate` with Python's stable sort;
`descending` mirrors the `reverse=` flag (the only call passes
`descending=False`). -/
def sortInstanceInfos (descending : Bool) (instance_infos : List InstanceInfo) :
    List InstanceInfo :=
  if descending then
    instance_infos.mergeSort
      (fun a b => Load.leb b.instance_load_migrate a.instance_load_migrate)
  else
    instance_infos.mergeSort
      (fun a b => Load.leb a.instance_load_migrate b.instance_load_migrate)

/-- `CheckMigratePolicy._compute_instance_load_after_migrate`: project
the load of a deep copy of `instance_info` after a hypothetical
migration (one running request and the blocks of the last running
request move in or out), under the `migrate` action. -/
def computeInstanceLoadAfterMigrate (cal : InstanceLoadCalculator)
    (instance_info : InstanceInfo) (is_migrate_in : Bool) : Load :=
  let n := instance_info.num_block_last_running_request
  let instance_info_after_migrate :=
    if is_migrate_in then
      { instance_info with
          num_running_request := instance_info.num_running_request + 1,
          num_free_gpu_block := instance_info.num_free_gpu_block - n }
    else
      { instance_info with
          num_running_request := instance_info.num_running_request - 1,
          num_free_gpu_block := instance_info.num_free_gpu_block + n }
  cal.compute_instance_load instance_info_after_migrate LoadAction.migrate

/-- `Balanced.check_migrate` (migration_scheduler.py, lines 89-110):
filter destinations (left) and sources (right), zip them positionally,
gate on the destination's projected load, then accept on the
balance-progress test or the `-inf` sentinel. -/
def Balanced.check_migrate (migrate_out_load_threshold : Load)
    (cal : InstanceLoadCalculator)
    (sorted_instance_infos : List InstanceInfo) : List (String × String) :=
  let left_instance_infos := sorted_instance_infos.filter
    (fun i => i.num_killed_request == 0 &&
              Load.ltb i.instance_load_migrate migrate_out_load_threshold)
  let right_instance_infos := sorted_instance_infos.reverse.filter
    (fun i => decide (0 < i.num_killed_request) ||
              Load.ltb migrate_out_load_threshold i.instance_load_migrate)
  (right_instance_infos.zip left_instance_infos).filterMap (fun rl =>
    let r := rl.1
    let l := rl.2
    let load_diff_before_mig :=
      Load.sub r.instance_load_migrate l.instance_load_migrate
    let left_load_after_mig := computeInstanceLoadAfterMigrate cal l true
    let right_load_after_mig := computeInstanceLoadAfterMigrate cal r false
    if Load.ltb migrate_out_load_threshold left_load_after_mig then
      none
    else
      let load_diff_after_mig := Load.sub right_load_after_mig left_load_after_mig
      if (Load.ltb (Load.val 0) load_diff_after_mig &&
          Load.ltb load_diff_after_mig load_diff_before_mig) ||
         (l.instance_load_migrate == Load.negInf) then
        some (r.instance_id, l.instance_id)
      else
        none)

/-- `PrefillConstrained.check_migrate` (lines 123-137): same filters as
`Balanced`, every zipped pair is emitted unconditionally. -/
def PrefillConstrained.check_migrate (migrate_out_load_threshold : Load)
    (sorted_instance_infos : List InstanceInfo) : List (String × String) :=
  let left_instance_infos := sorted_instance_infos.filter
    (fun i => i.num_killed_request == 0 &&
              Load.ltb i.instance_load_migrate migrate_out_load_threshold)
  let right_instance_infos := sorted_instance_infos.reverse.filter
    (fun i => decide (0 < i.num_killed_request) ||
              Load.ltb migrate_out_load_threshold i.instance_load_migrate)
  (right_instance_infos.zip left_instance_infos).map
    (fun rl => (rl.1.instance_id, rl.2.instance_id))

/-- `PrefillRelaxed.check_migrate` (lines 139-151): same left filter as
`Balanced`, the right side is every instance in descending order, every
zipped pair is emitted unconditionally. -/
def PrefillRelaxed.check_migrate (migrate_out_load_threshold : Load)
    (sorted_instance_infos : List InstanceInfo) : List (String × String) :=
  let left_instance_infos := sorted_instance_infos.filter
    (fun i => i.num_killed_request == 0 &&
              Load.ltb i.instance_load_migrate migrate_out_load_threshold)
  let right_instance_infos := sorted_instance_infos.reverse
  (right_instance_infos.zip left_instance_infos).map
    (fun rl => (rl.1.instance_id, rl.2.instance_id))

/-- The three policy classes registered in
`CheckMigratePolicyFactory._POLICY_REGISTRY`. -/
inductive CheckMigratePolicy where
  | balanced : CheckMigratePolicy
  | prefill_constrained : CheckMigratePolicy
  | prefill_relaxed : CheckMigratePolicy
deriving DecidableEq

/-- `CheckMigratePolicyFactory.get_policy`: registry lookup by name; an
unknown name raises `KeyError`, modelled by `none`. -/
def CheckMigratePolicyFactory.get_policy (policy_name : String) :
    Option CheckMigratePolicy :=
  if policy_name = "balanced" then some CheckMigratePolicy.balanced
  else if policy_name = "prefill_constrained" then
    some CheckMigratePolicy.prefill_constrained
  else if policy_name = "prefill_relaxed" then
    some CheckMigratePolicy.prefill_relaxed
  else none

/-- Dispatch of `check_migrate` on the resolved policy object. -/
def runCheckMigratePolicy (p : CheckMigratePolicy)
    (migrate_out_load_threshold : Load) (cal : InstanceLoadCalculator)
    (sorted_instance_infos : List InstanceInfo) : List (String × String) :=
  match p with
  | .balanced =>
      Balanced.check_migrate migrate_out_load_threshold cal sorted_instance_infos
  | .prefill_constrained =>
      PrefillConstrained.check_migrate migrate_out_load_threshold
        sorted_instance_infos
  | .prefill_relaxed =>
      PrefillRelaxed.check_migrate migrate_out_load_threshold
        sorted_instance_infos

/-- The `MigrationScheduler` object state (migration_scheduler.py,
lines 25-48).  `instance_info` and `sorted_instance_infos` start as
`None`. -/
structure MigrationScheduler where
  migrate_out_load_threshold : Load
  instance_load_calculator : InstanceLoadCalculator
  enable_prefill_migrate : Bool
  check_migrate_policy : CheckMigratePolicy
  num_instance : Nat
  instance_id_set : Finset String
  instance_info : Option InfoDict
  sorted_instance_infos : Option (List InstanceInfo)

/-- `MigrationScheduler.__init__` (lines 26-48): when
`enable_prefill_migrate` is false the factory is consulted with the
literal name "balanced"; otherwise with the configured name.  An unknown
name makes the factory raise, modelled by `none`. -/
def mkMigrationScheduler (check_migrate_policy : String)
    (migrate_out_load_threshold : Load)
    (instance_load_calculator : InstanceLoadCalculator) :
    Option MigrationScheduler :=
  let enable := instance_load_calculator.enable_prefill_migrate
  let resolved :=
    if !enable then CheckMigratePolicyFactory.get_policy "balanced"
    else CheckMigratePolicyFactory.get_policy check_migrate_policy
  resolved.map (fun p =>
    { migrate_out_load_threshold := migrate_out_load_threshold
      instance_load_calculator := instance_load_calculator
      enable_prefill_migrate := enable
      check_migrate_policy := p
      num_instance := 0
      instance_id_set := ∅
      instance_info := none
      sorted_instance_infos := none })

/-- `MigrationScheduler.update_instance_infos` (lines 54-56). -/
def MigrationScheduler.update_instance_infos (ms : MigrationScheduler)
    (d : InfoDict) : MigrationScheduler :=
  { ms with instance_info := some d }

/-- `MigrationScheduler.add_instance` (lines 58-60). -/
def MigrationScheduler.add_instance (ms : MigrationScheduler)
    (instance_id : String) : MigrationScheduler :=
  let s := insert instance_id ms.instance_id_set
  { ms with instance_id_set := s, num_instance := s.card }

/-- `MigrationScheduler.remove_instance` (lines 62-64). -/
def MigrationScheduler.remove_instance (ms : MigrationScheduler)
    (instance_id : String) : MigrationScheduler :=
  let s := ms.instance_id_set.erase instance_id
  { ms with instance_id_set := s, num_instance := s.card }

/-- `MigrationScheduler.check_migrate` (lines 50-52): sort the snapshot
ascending, store the sorted list, run the resolved policy.  A `None`
snapshot would crash in Python and is modelled by `none`. -/
def MigrationScheduler.check_migrate_run (ms : MigrationScheduler) :
    Option (List (String × String)) × MigrationScheduler :=
  match ms.instance_info with
  | none => (none, ms)
  | some d =>
      let sorted := sortInstanceInfos false (dictValues d)
      (some (runCheckMigratePolicy ms.check_migrate_policy
               ms.migrate_out_load_threshold ms.instance_load_calculator sorted),
       { ms with sorted_instance_infos := some sorted })

/-- Modelled from the spec: `dispatch_scheduler.py` is not under the
sources.  Recognized `dispatch_policy` values (spec §4.2 / §6.1). -/
inductive DispatchPolicy where
  | load : DispatchPolicy
  | queue : DispatchPolicy
  | flood : DispatchPolicy
deriving DecidableEq

/-- Modelled from the spec: `scale_scheduler.py` is not under the
sources.  Recognized `scale_policy` values (spec §4.4 / §6.1). -/
inductive ScalePolicy where
  | max_load : ScalePolicy
  | avg_load : ScalePolicy
deriving DecidableEq

/-- Modelled from the spec: the DispatchScheduler object (spec §4.2,
§4.5).  It mirrors membership and holds the last-known snapshot, like
the MigrationScheduler in the sources. -/
structure DispatchScheduler where
  dispatch_policy : DispatchPolicy
  instance_load_calculator : InstanceLoadCalculator
  num_instance : Nat
  instance_id_set : Finset String
  instance_info : Option InfoDict

/-- Modelled from the spec: the ScaleScheduler object (spec §4.4,
§4.5). -/
structure ScaleScheduler where
  scale_up_threshold : Load
  scale_down_threshold : Load
  scale_policy : ScalePolicy
  instance_load_calculator : InstanceLoadCalculator
  num_instance : Nat
  instance_id_set : Finset String
  instance_info : Option InfoDict

/-- Modelled from the spec: DispatchScheduler construction parses the
policy name; an unknown name raises a configuration error (spec §7),
modelled by `none`. -/
def mkDispatchScheduler (dispatch_policy : String)
    (cal : InstanceLoadCalculator) : Option DispatchScheduler :=
  (if dispatch_policy = "load" then some DispatchPolicy.load
   else if dispatch_policy = "queue" then some DispatchPolicy.queue
   else if dispatch_policy = "flood" then some DispatchPolicy.flood
   else none).map (fun p =>
    { dispatch_policy := p
      instance_load_calculator := cal
      num_instance := 0
      instance_id_set := ∅
      instance_info := none })

/-- Modelled from the spec: ScaleScheduler construction parses the
policy name and rejects `scale_down_threshold > scale_up_threshold`
(spec §4.4, §7), both modelled by `none`. -/
def mkScaleScheduler (scale_up_threshold scale_down_threshold : Load)
    (scale_policy : String) (cal : InstanceLoadCalculator) :
    Option ScaleScheduler :=
  let p :=
    if scale_policy = "max_load" then some ScalePolicy.max_load
    else if scale_policy = "avg_load" then some ScalePolicy.avg_load
    else none
  match p with
  | none => none
  | some p =>
      if Load.ltb scale_up_threshold scale_down_threshold then none
      else some
        { scale_up_threshold := scale_up_threshold
          scale_down_threshold := scale_down_threshold
          scale_policy := p
          instance_load_calculator := cal
          num_instance := 0
          instance_id_set := ∅
          instance_info := none }

/-- Modelled from the spec: sub-scheduler `update_instance_infos`
stores the snapshot (spec §4.5), like the MigrationScheduler one in the
sources. -/
def DispatchScheduler.update_instance_infos (ds : DispatchScheduler)
    (d : InfoDict) : DispatchScheduler :=
  { ds with instance_info := some d }

/-- Modelled from the spec: sub-scheduler membership mirror. -/
def DispatchScheduler.add_instance (ds : DispatchScheduler)
    (instance_id : String) : DispatchScheduler :=
  let s := insert instance_id ds.instance_id_set
  { ds with instance_id_set := s, num_instance := s.card }

/-- Modelled from the spec: sub-scheduler membership mirror. -/
def DispatchScheduler.remove_instance (ds : DispatchScheduler)
    (instance_id : String) : DispatchScheduler :=
  let s := ds.instance_id_set.erase instance_id
  { ds with instance_id_set := s, num_instance := s.card }

/-- Modelled from the spec: sub-scheduler `update_instance_infos`. -/
def ScaleScheduler.update_instance_infos (ss : ScaleScheduler)
    (d : InfoDict) : ScaleScheduler :=
  { ss with instance_info := some d }

/-- Modelled from the spec: sub-scheduler membership mirror. -/
def ScaleScheduler.add_instance (ss : ScaleScheduler)
    (instance_id : String) : ScaleScheduler :=
  let s := insert instance_id ss.instance_id_set
  { ss with instance_id_set := s, num_instance := s.card }

/-- Modelled from the spec: sub-scheduler membership mirror. -/
def ScaleScheduler.remove_instance (ss : ScaleScheduler)
    (instance_id : String) : ScaleScheduler :=
  let s := ss.instance_id_set.erase instance_id
  { ss with instance_id_set := s, num_instance := s.card }

/-- Modelled from the spec (§4.2): which of two instances wins the
dispatch selection, with the deterministic tie-break chain (smaller
`num_dispatched_request`, then smaller `instance_id`; inverted for
`flood`). -/
def dispatchChoiceBetter (p : DispatchPolicy) (a b : InstanceInfo) : Bool :=
  match p with
  | .load =>
      Load.ltb a.instance_load_dispatch_scale b.instance_load_dispatch_scale ||
      (a.instance_load_dispatch_scale == b.instance_load_dispatch_scale &&
        (decide (a.num_dispatched_request < b.num_dispatched_request) ||
         (a.num_dispatched_request == b.num_dispatched_request &&
          decide (a.instance_id < b.instance_id))))
  | .queue =>
      decide (a.num_waiting_request < b.num_waiting_request) ||
      (a.num_waiting_request == b.num_waiting_request &&
        (decide (a.num_dispatched_request < b.num_dispatched_request) ||
         (a.num_dispatched_request == b.num_dispatched_request &&
          decide (a.instance_id < b.instance_id))))
  | .flood =>
      decide (b.num_dispatched_request < a.num_dispatched_request) ||
      (a.num_dispatched_request == b.num_dispatched_request &&
        decide (b.instance_id < a.instance_id))

/-- Modelled from the spec (§4.2): select the dispatch target among the
snapshot's values; `none` on an empty registry (the error surfaced to
the caller). -/
def chooseDispatch (p : DispatchPolicy) (instance_infos : List InstanceInfo) :
    Option String :=
  (instance_infos.foldl (fun best i =>
    match best with
    | none => some i
    | some b => if dispatchChoiceBetter p i b then some i else some b) none).map
    InstanceInfo.instance_id

/-- Increment `num_dispatched_request` of the chosen instance inside the
registry dict (the Python code mutates the shared InstanceInfo object
in place). -/
def bumpDispatched (chosen : String) (d : InfoDict) : InfoDict :=
  d.map (fun kv =>
    if kv.1 = chosen then
      (kv.1, { kv.2 with
                 num_dispatched_request := kv.2.num_dispatched_request + 1 })
    else kv)

/-- Modelled from the spec (§4.2): the DispatchScheduler's `dispatch`,
choosing from its stored snapshot and bumping the chosen instance's
counter in it. -/
def DispatchScheduler.dispatch_run (ds : DispatchScheduler) :
    Option String × DispatchScheduler :=
  match ds.instance_info with
  | none => (none, ds)
  | some d =>
      match chooseDispatch ds.dispatch_policy (dictValues d) with
      | none => (none, ds)
      | some chosen => (some chosen, { ds with instance_info := some (bumpDispatched chosen d) })

/-- Modelled from the spec (§4.4): the fold computing the maximum of a
nonempty list of float loads. -/
def loadListMax : List Load → Load
  | [] => Load.nan
  | x :: xs => xs.foldl (fun a b => if Load.ltb a b then b else a) x

/-- Sum of a list of float loads. -/
def loadListSum (ls : List Load) : Load := ls.foldl Load.add (Load.val 0)

/-- Modelled from the spec (§4.4): the aggregate load compared against
the scale thresholds. -/
def scaleAggregate (p : ScalePolicy) (loads : List Load) : Load :=
  match p with
  | .max_load => loadListMax loads
  | .avg_load => Load.divNat (loadListSum loads) loads.length

/-- Modelled from the spec (§4.4): `check_scale` compares the aggregate
`instance_load_dispatch_scale` against the two thresholds and returns
`(1,0)`, `(0,1)` or `(0,0)`; an empty registry yields `(0,0)`. -/
def ScaleScheduler.check_scale_run (ss : ScaleScheduler) :
    (Nat × Nat) × ScaleScheduler :=
  match ss.instance_info with
  | none => ((0, 0), ss)
  | some d =>
      let loads := (dictValues d).map InstanceInfo.instance_load_dispatch_scale
      if loads.isEmpty then ((0, 0), ss)
      else
        let agg := scaleAggregate ss.scale_policy loads
        if Load.ltb ss.scale_up_threshold agg then ((1, 0), ss)
        else if Load.ltb agg ss.scale_down_threshold then ((0, 1), ss)
        else ((0, 0), ss)

/-- Modelled from the spec (§4.4, §3): the canonical empty InstanceInfo
handed out by the ScaleScheduler: zero counters and both derived load
scalars at the `-inf` sentinel. -/
def ScaleScheduler.get_empty_instance_info : InstanceInfo :=
  { instance_id := ""
    num_running_request := 0
    num_waiting_request := 0
    num_killed_request := 0
    num_total_gpu_block := 0
    num_free_gpu_block := 0
    num_used_gpu_block := 0
    num_block_first_waiting_request := 0
    num_block_last_running_request := 0
    num_batched_tokens := 0
    num_dispatched_request := 0
    instance_load_dispatch_scale := Load.negInf
    instance_load_migrate := Load.negInf }

/-- The mutable state of a `GlobalScheduler` object
(global_scheduler.py, lines 26-51): the registry (`instance_info`,
`instance_id_set`, `num_instance`), the calculator and the three
sub-schedulers. -/
structure GSState where
  instance_load_calculator : InstanceLoadCalculator
  instance_info : InfoDict
  instance_id_set : Finset String
  num_instance : Nat
  dispatch_scheduler : DispatchScheduler
  migrate_scheduler : MigrationScheduler
  scale_scheduler : ScaleScheduler

/-- Modelled from the spec (§6.1): the configuration record
(`config.py` is not under the sources); policy names arrive as
strings. -/
structure GlobalSchedulerConfig where
  load_metric : String
  dispatch_policy : String
  check_migrate_policy : String
  scale_policy : String
  migrate_out_load_threshold : Load
  scale_up_threshold : Load
  scale_down_threshold : Load
  enable_prefill_migrate : Bool

/-- `GlobalScheduler.__init__` (lines 27-51): build the calculator and
the three sub-schedulers, start with an empty registry.  Construction
of any sub-scheduler can raise a configuration error, modelled by
`none`.  The interpretation of `load_metric` as a formula lives in the
missing `instance_info.py`, so it is taken as an argument. -/
def mkGlobalScheduler (cfg : GlobalSchedulerConfig)
    (load_metric_fn : InstanceInfo → LoadAction → Load) : Option GSState :=
  let cal : InstanceLoadCalculator :=
    { enable_prefill_migrate := cfg.enable_prefill_migrate
      compute_instance_load := load_metric_fn }
  match mkDispatchScheduler cfg.dispatch_policy cal,
        mkMigrationScheduler cfg.check_migrate_policy
          cfg.migrate_out_load_threshold cal,
        mkScaleScheduler cfg.scale_up_threshold cfg.scale_down_threshold
          cfg.scale_policy cal with
  | some ds, some ms, some ss =>
      some { instance_load_calculator := cal
             instance_info := []
             instance_id_set := ∅
             num_instance := 0
             dispatch_scheduler := ds
             migrate_scheduler := ms
             scale_scheduler := ss }
  | _, _, _ => none

/-- One step of `GlobalScheduler.update_instance_infos` (lines 53-59):
for a known id, recompute the two derived load scalars on the incoming
record (the dispatch scalar is written first, so the migrate load is
computed on the record already carrying it) and overwrite the entry;
unknown ids are dropped. -/
def ingestInstanceInfo (cal : InstanceLoadCalculator) (d : InfoDict)
    (instance_info : InstanceInfo) : InfoDict :=
  if (dictLookup d instance_info.instance_id).isSome then
    let i1 := { instance_info with
                  instance_load_dispatch_scale :=
                    cal.compute_instance_load instance_info LoadAction.dispatch }
    let i2 := { i1 with
                  instance_load_migrate :=
                    cal.compute_instance_load i1 LoadAction.migrate }
    dictInsert d i2.instance_id i2
  else d

/-- `GlobalScheduler.update_instance_infos` (lines 53-59). -/
def GSState.update_instance_infos (s : GSState)
    (instance_infos : List InstanceInfo) : GSState :=
  let d := instance_infos.foldl
    (ingestInstanceInfo s.instance_load_calculator) s.instance_info
  { s with instance_info := d }

/-- `GlobalScheduler.dispatch` (lines 61-64): refresh the dispatch
sub-scheduler's snapshot and delegate; the chosen instance's
`num_dispatched_request` bump is visible through the shared registry
dict. -/
def GSState.dispatch (s : GSState) : Option String × GSState :=
  let ds := s.dispatch_scheduler.update_instance_infos s.instance_info
  let res := ds.dispatch_run
  match res.1 with
  | none => (none, { s with dispatch_scheduler := res.2 })
  | some chosen =>
      (some chosen,
       { s with instance_info := bumpDispatched chosen s.instance_info
                dispatch_scheduler := res.2 })

/-- `GlobalScheduler.check_migrate` (lines 66-69): refresh the
migration sub-scheduler's snapshot and delegate. -/
def GSState.check_migrate (s : GSState) :
    Option (List (String × String)) × GSState :=
  let ms := s.migrate_scheduler.update_instance_infos s.instance_info
  let res := ms.check_migrate_run
  (res.1, { s with migrate_scheduler := res.2 })

/-- `GlobalScheduler.check_scale` (lines 71-74): refresh the scale
sub-scheduler's snapshot and delegate. -/
def GSState.check_scale (s : GSState) : (Nat × Nat) × GSState :=
  let ss := s.scale_scheduler.update_instance_infos s.instance_info
  let res := ss.check_scale_run
  (res.1, { s with scale_scheduler := res.2 })

/-- `GlobalScheduler._add_instance` (lines 100-105): grow the id set,
recompute `num_instance`, broadcast snapshot and membership to the
three sub-schedulers. -/
def GSState.add_instance_broadcast (s : GSState) (instance_id : String) :
    GSState :=
  let set' := insert instance_id s.instance_id_set
  { s with
      instance_id_set := set'
      num_instance := set'.card
      dispatch_scheduler :=
        (s.dispatch_scheduler.update_instance_infos s.instance_info).add_instance
          instance_id
      migrate_scheduler :=
        (s.migrate_scheduler.update_instance_infos s.instance_info).add_instance
          instance_id
      scale_scheduler :=
        (s.scale_scheduler.update_instance_infos s.instance_info).add_instance
          instance_id }

/-- `GlobalScheduler._remove_instance` (lines 107-112). -/
def GSState.remove_instance_broadcast (s : GSState) (instance_id : String) :
    GSState :=
  let set' := s.instance_id_set.erase instance_id
  { s with
      instance_id_set := set'
      num_instance := set'.card
      dispatch_scheduler :=
        (s.dispatch_scheduler.update_instance_infos
          s.instance_info).remove_instance instance_id
      migrate_scheduler :=
        (s.migrate_scheduler.update_instance_infos
          s.instance_info).remove_instance instance_id
      scale_scheduler :=
        (s.scale_scheduler.update_instance_infos
          s.instance_info).remove_instance instance_id }

/-- One iteration of the `GlobalScheduler.scale_up` loop (lines 76-87):
ids already present are ignored; a fresh id gets the empty InstanceInfo
(with its id patched in) inserted before `_add_instance` runs. -/
def GSState.scale_up_one (s : GSState) (ins_id : String) : GSState :=
  if (dictLookup s.instance_info ins_id).isSome then s
  else
    let new_instance_info :=
      { ScaleScheduler.get_empty_instance_info with instance_id := ins_id }
    let s1 := { s with
                  instance_info := dictInsert s.instance_info ins_id
                    new_instance_info }
    s1.add_instance_broadcast ins_id

/-- `GlobalScheduler.scale_up` (lines 76-87) on a list of ids. -/
def GSState.scale_up (s : GSState) (instance_ids : List String) : GSState :=
  instance_ids.foldl GSState.scale_up_one s

/-- One iteration of the `GlobalScheduler.scale_down` loop (lines
89-98): absent ids are ignored; a present id is deleted from the dict
before `_remove_instance` runs. -/
def GSState.scale_down_one (s : GSState) (ins_id : String) : GSState :=
  if (dictLookup s.instance_info ins_id).isSome then
    let s1 := { s with instance_info := dictErase s.instance_info ins_id }
    s1.remove_instance_broadcast ins_id
  else s

/-- `GlobalScheduler.scale_down` (lines 89-98) on a list of ids. -/
def GSState.scale_down (s : GSState) (instance_ids : List String) : GSState :=
  instance_ids.foldl GSState.scale_down_one s

/-- The registry invariant of the claims (spec §3, §8.2) together with
the key uniqueness that a Python dict enjoys intrinsically:
`num_instance` equals the cardinality of `instance_id_set`, which
equals the number of registry entries, the id set is exactly the key
set of the registry dict, and the keys are pairwise distinct. -/
def GSState.WF (s : GSState) : Prop :=
  s.num_instance = s.instance_id_set.card ∧
  s.instance_id_set.card = s.instance_info.length ∧
  s.instance_id_set = (dictKeys s.instance_info).toFinset ∧
  (dictKeys s.instance_info).Nodup

instance (s : GSState) : Decidable s.WF := by
  unfold GSState.WF
  infer_instance

/-! Concrete fixtures used by the witness theorems. -/

/-- A concrete calculator for witnesses: constant zero load, prefill
migrate disabled. -/
def calZeroF : InstanceLoadCalculator :=
  { enable_prefill_migrate := false
    compute_instance_load := fun _ _ => Load.val 0 }

/-- A concrete calculator for witnesses: constant zero load, prefill
migrate enabled. -/
def calZeroT : InstanceLoadCalculator :=
  { enable_prefill_migrate := true
    compute_instance_load := fun _ _ => Load.val 0 }

/-- A freshly admitted destination `a` at the `-inf` sentinel. -/
def infoA : InstanceInfo :=
  { ScaleScheduler.get_empty_instance_info with instance_id := "a" }

/-- An overloaded source `b`: one killed request, migrate load 5. -/
def infoB : InstanceInfo :=
  { ScaleScheduler.get_empty_instance_info with
      instance_id := "b"
      num_killed_request := 1
      instance_load_migrate := Load.val 5 }

/-- An unloaded instance `a` that passes the destination filter (no
killed requests, migrate load 1 below a threshold of 3). -/
def infoSelf : InstanceInfo :=
  { ScaleScheduler.get_empty_instance_info with
      instance_id := "a"
      instance_load_migrate := Load.val 1 }

/-- A concrete calculator for witnesses whose migrate projection is
`-inf` everywhere (an empty fleet of fresh instances), prefill migrate
enabled. -/
def calNegInf : InstanceLoadCalculator :=
  { enable_prefill_migrate := true
    compute_instance_load := fun _ _ => Load.negInf }

/-- A concrete dispatch sub-scheduler for witness states. -/
def dsTest : DispatchScheduler :=
  { dispatch_policy := DispatchPolicy.load
    instance_load_calculator := calZeroF
    num_instance := 0
    instance_id_set := ∅
    instance_info := none }

/-- A concrete migration sub-scheduler for witness states. -/
def msTest : MigrationScheduler :=
  { migrate_out_load_threshold := Load.val 3
    instance_load_calculator := calZeroF
    enable_prefill_migrate := false
    check_migrate_policy := CheckMigratePolicy.balanced
    num_instance := 0
    instance_id_set := ∅
    instance_info := none
    sorted_instance_infos := none }

/-- A concrete scale sub-scheduler for witness states. -/
def ssTest : ScaleScheduler :=
  { scale_up_threshold := Load.val 2
    scale_down_threshold := Load.val 1
    scale_policy := ScalePolicy.max_load
    instance_load_calculator := calZeroF
    num_instance := 0
    instance_id_set := ∅
    instance_info := none }

/-- A concrete GlobalScheduler state with an empty registry. -/
def gsTest : GSState :=
  { instance_load_calculator := calZeroF
    instance_info := []
    instance_id_set := ∅
    num_instance := 0
    dispatch_scheduler := dsTest
    migrate_scheduler := msTest
    scale_scheduler := ssTest }

/-- A concrete GlobalScheduler state whose registry holds instance
`a`. -/
def gsTestA : GSState :=
  { gsTest with
      instance_info := [("a", infoA)]
      instance_id_set := {"a"}
      num_instance := 1 }

/-- A heartbeat record for `a` reporting one running request. -/
def infoHeart1 : InstanceInfo :=
  { ScaleScheduler.get_empty_instance_info with
      instance_id := "a"
      num_running_request := 1 }

/-- A heartbeat record for `a` reporting two running requests. -/
def infoHeart2 : InstanceInfo :=
  { ScaleScheduler.get_empty_instance_info with
      instance_id := "a"
      num_running_request := 2 }

/-! Helper lemmas about the dict model. -/

theorem mem_dictKeys_cons (k : String) (w : InstanceInfo) (rest : InfoDict)
    (key : String) :
    key ∈ dictKeys ((k, w) :: rest) ↔ key = k ∨ key ∈ dictKeys rest := by
  simp [dictKeys]

theorem dictLookup_isSome_iff (d : InfoDict) (key : String) :
    (dictLookup d key).isSome = true ↔ key ∈ dictKeys d := by
  induction d with
  | nil => simp [dictLookup, dictKeys]
  | cons kv rest ih =>
    obtain ⟨k, v⟩ := kv
    by_cases h : k = key
    · subst h
      simp [dictLookup, dictKeys]
    · simp [dictLookup, dictKeys, h, ih, Ne.symm h]

theorem dictKeys_dictInsert_mem (d : InfoDict) (key : String)
    (v : InstanceInfo) (h : key ∈ dictKeys d) :
    dictKeys (dictInsert d key v) = dictKeys d := by
  induction d with
  | nil => simp [dictKeys] at h
  | cons kv rest ih =>
    obtain ⟨k, w⟩ := kv
    by_cases hk : k = key
    · subst hk
      simp [dictInsert, dictKeys]
    · have hmem : key ∈ dictKeys rest := by
        rcases (mem_dictKeys_cons k w rest key).mp h with h1 | h2
        · exact absurd h1.symm hk
        · exact h2
      simp only [dictInsert, hk, if_false, dictKeys, List.map_cons]
      have := ih hmem
      simp only [dictKeys] at this
      rw [this]

theorem dictInsert_not_mem (d : InfoDict) (key : String)
    (v : InstanceInfo) (h : key ∉ dictKeys d) :
    dictInsert d key v = d ++ [(key, v)] := by
  induction d with
  | nil => simp [dictInsert]
  | cons kv rest ih =>
    obtain ⟨k, w⟩ := kv
    have hk : k ≠ key := fun hkey =>
      h ((mem_dictKeys_cons k w rest key).mpr (Or.inl hkey.symm))
    have hrest : key ∉ dictKeys rest := fun hmem =>
      h ((mem_dictKeys_cons k w rest key).mpr (Or.inr hmem))
    simp [dictInsert, hk, ih hrest]

theorem dictLookup_dictInsert_self (d : InfoDict) (key : String)
    (v : InstanceInfo) : dictLookup (dictInsert d key v) key = some v := by
  induction d with
  | nil => simp [dictInsert, dictLookup]
  | cons kv rest ih =>
    obtain ⟨k, w⟩ := kv
    by_cases hk : k = key
    · subst hk
      simp [dictInsert, dictLookup]
    · simp [dictInsert, dictLookup, hk, ih]

theorem dictLookup_dictInsert_ne (d : InfoDict) (key k' : String)
    (v : InstanceInfo) (h : k' ≠ key) :
    dictLookup (dictInsert d key v) k' = dictLookup d k' := by
  induction d with
  | nil => simp [dictInsert, dictLookup, Ne.symm h]
  | cons kv rest ih =>
    obtain ⟨k, w⟩ := kv
    by_cases hk : k = key
    · subst hk
      simp [dictInsert, dictLookup, Ne.symm h]
    · by_cases hk' : k = k'
      · subst hk'
        simp [dictInsert, dictLookup, hk]
      · simp [dictInsert, dictLookup, hk, hk', ih]

theorem dictKeys_dictErase (d : InfoDict) (key : String) :
    dictKeys (dictErase d key) = (dictKeys d).filter (fun x => x != key) := by
  induction d with
  | nil => simp [dictErase, dictKeys]
  | cons kv rest ih =>
    obtain ⟨k, w⟩ := kv
    by_cases hk : k = key
    · subst hk
      simp only [dictErase, dictKeys, List.filter_cons] at *
      simp [ih]
    · simp only [dictErase, dictKeys, List.filter_cons] at *
      simp [hk, ih]

theorem dictErase_append_single (d : InfoDict) (key : String)
    (v : InstanceInfo) (h : key ∉ dictKeys d) :
    dictErase (d ++ [(key, v)]) key = d := by
  induction d with
  | nil => simp [dictErase]
  | cons kv rest ih =>
    obtain ⟨k, w⟩ := kv
    have hk : k ≠ key := fun hkey =>
      h ((mem_dictKeys_cons k w rest key).mpr (Or.inl hkey.symm))
    have hrest : key ∉ dictKeys rest := fun hmem =>
      h ((mem_dictKeys_cons k w rest key).mpr (Or.inr hmem))
    simp only [dictErase, List.cons_append, List.filter_cons] at *
    simp [hk, ih hrest]

theorem dictKeys_bumpDispatched (chosen : String) (d : InfoDict) :
    dictKeys (bumpDispatched chosen d) = dictKeys d := by
  induction d with
  | nil => simp [bumpDispatched, dictKeys]
  | cons kv rest ih =>
    by_cases hk : kv.1 = chosen
    · simpa [bumpDispatched, dictKeys, hk] using ih
    · simpa [bumpDispatched, dictKeys, hk] using ih

theorem dictKeys_ingest (cal : InstanceLoadCalculator) (d : InfoDict)
    (info : InstanceInfo) :
    dictKeys (ingestInstanceInfo cal d info) = dictKeys d := by
  unfold ingestInstanceInfo
  by_cases h : (dictLookup d info.instance_id).isSome = true
  · have hmem : info.instance_id ∈ dictKeys d :=
      (dictLookup_isSome_iff d info.instance_id).mp h
    simp [h, dictKeys_dictInsert_mem d info.instance_id _ hmem]
  · simp [h]

theorem dictKeys_foldl_ingest (cal : InstanceLoadCalculator)
    (batch : List InstanceInfo) (d : InfoDict) :
    dictKeys (batch.foldl (ingestInstanceInfo cal) d) = dictKeys d := by
  induction batch generalizing d with
  | nil => rfl
  | cons b rest ih =>
    simp only [List.foldl_cons]
    rw [ih, dictKeys_ingest]

theorem dictLookup_ingest_ne (cal : InstanceLoadCalculator) (d : InfoDict)
    (info : InstanceInfo) (key : String) (h : key ≠ info.instance_id) :
    dictLookup (ingestInstanceInfo cal d info) key = dictLookup d key := by
  unfold ingestInstanceInfo
  by_cases hs : (dictLookup d info.instance_id).isSome = true
  · simp only [hs, if_true]
    exact dictLookup_dictInsert_ne d info.instance_id key _ h
  · simp [hs]

theorem dictLookup_foldl_ingest_not_mem (cal : InstanceLoadCalculator)
    (batch : List InstanceInfo) (d : InfoDict) (key : String)
    (h : key ∉ batch.map InstanceInfo.instance_id) :
    dictLookup (batch.foldl (ingestInstanceInfo cal) d) key =
      dictLookup d key := by
  induction batch generalizing d with
  | nil => rfl
  | cons b rest ih =>
    simp only [List.map_cons, List.mem_cons, not_or] at h
    simp only [List.foldl_cons]
    rw [ih _ h.2, dictLookup_ingest_ne cal d b key h.1]

/-! Facts about the float model. -/

theorem Load.leb_of_ltb_eq_false (a b : Load) (ha : a ≠ Load.nan)
    (hb : b ≠ Load.nan) (h : Load.ltb a b = false) : Load.leb b a = true := by
  cases a <;> cases b <;> simp_all [Load.ltb, Load.leb]

/-! Inversion of the migration policies: what an emitted pair tells us
about the instances that produced it. -/

theorem balanced_emission_inversion (thr : Load) (cal : InstanceLoadCalculator)
    (sorted : List InstanceInfo) (s d : String)
    (h : (s, d) ∈ Balanced.check_migrate thr cal sorted) :
    ∃ r l : InstanceInfo,
      r ∈ sorted ∧ l ∈ sorted ∧ s = r.instance_id ∧ d = l.instance_id ∧
      l.num_killed_request = 0 ∧
      Load.ltb l.instance_load_migrate thr = true ∧
      (0 < r.num_killed_request ∨ Load.ltb thr r.instance_load_migrate = true) ∧
      Load.ltb thr (computeInstanceLoadAfterMigrate cal l true) = false ∧
      ((Load.ltb (Load.val 0)
          (Load.sub (computeInstanceLoadAfterMigrate cal r false)
            (computeInstanceLoadAfterMigrate cal l true)) = true ∧
        Load.ltb
          (Load.sub (computeInstanceLoadAfterMigrate cal r false)
            (computeInstanceLoadAfterMigrate cal l true))
          (Load.sub r.instance_load_migrate l.instance_load_migrate) = true) ∨
       l.instance_load_migrate = Load.negInf) := by
  simp only [Balanced.check_migrate] at h
  rcases List.mem_filterMap.mp h with ⟨⟨r, l⟩, hzip, hf⟩
  obtain ⟨hr, hl⟩ := List.of_mem_zip hzip
  rw [List.mem_filter] at hr hl
  obtain ⟨hrmem, hrpred⟩ := hr
  obtain ⟨hlmem, hlpred⟩ := hl
  rw [List.mem_reverse] at hrmem
  rw [Bool.and_eq_true] at hlpred
  obtain ⟨hlk, hllt⟩ := hlpred
  rw [beq_iff_eq] at hlk
  rw [Bool.or_eq_true, decide_eq_true_eq] at hrpred
  refine ⟨r, l, hrmem, hlmem, ?_⟩
  dsimp only at hf
  split at hf
  next hgate => simp at hf
  next hgate =>
    split at hf
    next hacc =>
      rw [Option.some_inj] at hf
      have hs : s = r.instance_id := (congrArg Prod.fst hf).symm
      have hd : d = l.instance_id := (congrArg Prod.snd hf).symm
      simp only [Bool.not_eq_true] at hgate
      rw [Bool.or_eq_true, Bool.and_eq_true, beq_iff_eq] at hacc
      exact ⟨hs, hd, hlk, hllt, hrpred, hgate, hacc⟩
    next hacc => simp at hf

theorem prefill_constrained_emission_inversion (thr : Load)
    (sorted : List InstanceInfo) (s d : String)
    (h : (s, d) ∈ PrefillConstrained.check_migrate thr sorted) :
    ∃ r l : InstanceInfo,
      r ∈ sorted ∧ l ∈ sorted ∧ s = r.instance_id ∧ d = l.instance_id ∧
      l.num_killed_request = 0 ∧
      Load.ltb l.instance_load_migrate thr = true ∧
      (0 < r.num_killed_request ∨ Load.ltb thr r.instance_load_migrate = true) := by
  simp only [PrefillConstrained.check_migrate] at h
  rcases List.mem_map.mp h with ⟨⟨r, l⟩, hzip, heq⟩
  obtain ⟨hr, hl⟩ := List.of_mem_zip hzip
  rw [List.mem_filter] at hr hl
  obtain ⟨hrmem, hrpred⟩ := hr
  obtain ⟨hlmem, hlpred⟩ := hl
  rw [List.mem_reverse] at hrmem
  rw [Bool.and_eq_true, beq_iff_eq] at hlpred
  rw [Bool.or_eq_true, decide_eq_true_eq] at hrpred
  exact ⟨r, l, hrmem, hlmem, (congrArg Prod.fst heq).symm,
    (congrArg Prod.snd heq).symm, hlpred.1, hlpred.2, hrpred⟩

/-- C1, evaluation of the code at the failing input: a registry holding
the single instance `a` (no killed requests, migrate load 1, threshold
3) under the `prefill_relaxed` policy makes `check_migrate()` return
the self-pair `(a, a)` — the implementation emits every zipped pair and
never drops a pair whose source equals its destination. -/
theorem prefill_relaxed_emits_self_pair :
    ∃ ms, mkMigrationScheduler "prefill_relaxed" (Load.val 3) calZeroT = some ms ∧
      (MigrationScheduler.check_migrate_run
        (ms.update_instance_infos [("a", infoSelf)])).1 = some [("a", "a")] := by
  refine ⟨_, rfl, ?_⟩
  have hsort : sortInstanceInfos false (dictValues [("a", infoSelf)]) =
      [infoSelf] := by
    simp [sortInstanceInfos, dictValues]
  simp only [MigrationScheduler.update_instance_infos,
    MigrationScheduler.check_migrate_run, hsort]
  decide

/-- C2: under the balanced policy every emitted pair `(s, d)` comes from
a source record `r` and a destination record `l` in the snapshot such
that either the destination's projected post-migration load is at most
`migrate_out_load_threshold` and the projected gap is strictly between
0 and the pre-migration gap, or the destination sits at the `-inf`
sentinel.  The two `nan`-freeness hypotheses say that the configured
threshold and the calculator are genuine (non-`nan`) floats. -/
theorem balanced_emitted_pair_progress_or_sentinel (thr : Load)
    (cal : InstanceLoadCalculator) (sorted : List InstanceInfo) (s d : String)
    (hthr : thr ≠ Load.nan)
    (hcal : ∀ i, cal.compute_instance_load i LoadAction.migrate ≠ Load.nan)
    (h : (s, d) ∈ Balanced.check_migrate thr cal sorted) :
    ∃ r l : InstanceInfo,
      r ∈ sorted ∧ l ∈ sorted ∧ s = r.instance_id ∧ d = l.instance_id ∧
      ((Load.leb (computeInstanceLoadAfterMigrate cal l true) thr = true ∧
        Load.ltb (Load.val 0)
          (Load.sub (computeInstanceLoadAfterMigrate cal r false)
            (computeInstanceLoadAfterMigrate cal l true)) = true ∧
        Load.ltb
          (Load.sub (computeInstanceLoadAfterMigrate cal r false)
            (computeInstanceLoadAfterMigrate cal l true))
          (Load.sub r.instance_load_migrate l.instance_load_migrate) = true) ∨
       l.instance_load_migrate = Load.negInf) := by
  obtain ⟨r, l, hrmem, hlmem, hs, hd, _, _, _, hgate, hacc⟩ :=
    balanced_emission_inversion thr cal sorted s d h
  refine ⟨r, l, hrmem, hlmem, hs, hd, ?_⟩
  have hle : Load.leb (computeInstanceLoadAfterMigrate cal l true) thr = true :=
    Load.leb_of_ltb_eq_false thr _ hthr
      (hcal _) hgate
  rcases hacc with ⟨h1, h2⟩ | hsent
  · exact Or.inl ⟨hle, h1, h2⟩
  · exact Or.inr hsent

/-- C2 witness: at threshold 3 with the constant `-inf` calculator, the
registry `[infoA, infoB]` makes the balanced policy emit `(b, a)`, and
the theorem's conclusion holds there. -/
theorem balanced_emitted_pair_progress_or_sentinel_witness :
    Load.val 3 ≠ Load.nan ∧
    ("b", "a") ∈ Balanced.check_migrate (Load.val 3) calNegInf [infoA, infoB] ∧
    (∃ r l : InstanceInfo,
      r ∈ [infoA, infoB] ∧ l ∈ [infoA, infoB] ∧
      "b" = r.instance_id ∧ "a" = l.instance_id ∧
      ((Load.leb (computeInstanceLoadAfterMigrate calNegInf l true)
          (Load.val 3) = true ∧
        Load.ltb (Load.val 0)
          (Load.sub (computeInstanceLoadAfterMigrate calNegInf r false)
            (computeInstanceLoadAfterMigrate calNegInf l true)) = true ∧
        Load.ltb
          (Load.sub (computeInstanceLoadAfterMigrate calNegInf r false)
            (computeInstanceLoadAfterMigrate calNegInf l true))
          (Load.sub r.instance_load_migrate l.instance_load_migrate) = true) ∨
       l.instance_load_migrate = Load.negInf)) :=
  ⟨by decide, by decide,
   balanced_emitted_pair_progress_or_sentinel (Load.val 3) calNegInf
     [infoA, infoB] "b" "a" (by decide) (fun i hx => Load.noConfusion hx)
     (by decide)⟩

/-- C8: under the balanced and prefill_constrained policies, every
emitted pair's destination comes from a snapshot record with no killed
requests and a migrate load strictly below
`migrate_out_load_threshold`. -/
theorem migrate_destination_unkilled_below_threshold (thr : Load)
    (cal : InstanceLoadCalculator) (sorted : List InstanceInfo)
    (s d : String) :
    ((s, d) ∈ Balanced.check_migrate thr cal sorted →
      ∃ l : InstanceInfo, l ∈ sorted ∧ l.instance_id = d ∧
        l.num_killed_request = 0 ∧
        Load.ltb l.instance_load_migrate thr = true) ∧
    ((s, d) ∈ PrefillConstrained.check_migrate thr sorted →
      ∃ l : InstanceInfo, l ∈ sorted ∧ l.instance_id = d ∧
        l.num_killed_request = 0 ∧
        Load.ltb l.instance_load_migrate thr = true) := by
  constructor
  · intro h
    obtain ⟨r, l, _, hlmem, _, hd, hlk, hllt, _, _, _⟩ :=
      balanced_emission_inversion thr cal sorted s d h
    exact ⟨l, hlmem, hd.symm, hlk, hllt⟩
  · intro h
    obtain ⟨r, l, _, hlmem, _, hd, hlk, hllt, _⟩ :=
      prefill_constrained_emission_inversion thr sorted s d h
    exact ⟨l, hlmem, hd.symm, hlk, hllt⟩

/-- C8 witness: the pair `(b, a)` emitted by the balanced policy on
`[infoA, infoB]` has destination `a` with zero killed requests and
migrate load below the threshold 3. -/
theorem migrate_destination_unkilled_below_threshold_witness :
    ("b", "a") ∈ Balanced.check_migrate (Load.val 3) calNegInf
      [infoA, infoB] ∧
    (∃ l : InstanceInfo, l ∈ [infoA, infoB] ∧ l.instance_id = "a" ∧
      l.num_killed_request = 0 ∧
      Load.ltb l.instance_load_migrate (Load.val 3) = true) :=
  ⟨by decide,
   (migrate_destination_unkilled_below_threshold (Load.val 3) calNegInf
     [infoA, infoB] "b" "a").1 (by decide)⟩

/-- C10: under the balanced policy the destination projected-load gate
is applied before the sentinel branch, so every emitted pair's
destination record has a projected post-migration load of at most
`migrate_out_load_threshold` — also when that destination sits at the
`-inf` sentinel.  A pair whose destination's projection exceeds the
threshold is therefore never emitted. -/
theorem balanced_threshold_gate_precedes_sentinel (thr : Load)
    (cal : InstanceLoadCalculator) (sorted : List InstanceInfo)
    (s d : String) (hthr : thr ≠ Load.nan)
    (hcal : ∀ i, cal.compute_instance_load i LoadAction.migrate ≠ Load.nan)
    (h : (s, d) ∈ Balanced.check_migrate thr cal sorted) :
    ∃ l : InstanceInfo, l ∈ sorted ∧ l.instance_id = d ∧
      Load.leb (computeInstanceLoadAfterMigrate cal l true) thr = true := by
  obtain ⟨r, l, _, hlmem, _, hd, _, _, _, hgate, _⟩ :=
    balanced_emission_inversion thr cal sorted s d h
  exact ⟨l, hlmem, hd.symm,
    Load.leb_of_ltb_eq_false thr _ hthr (hcal _) hgate⟩

/-- C10 witness: the destination `a` of the emitted pair `(b, a)` sits
at the `-inf` sentinel, and its projected load still satisfies the
threshold gate. -/
theorem balanced_threshold_gate_precedes_sentinel_witness :
    infoA.instance_load_migrate = Load.negInf ∧
    ("b", "a") ∈ Balanced.check_migrate (Load.val 3) calNegInf
      [infoA, infoB] ∧
    (∃ l : InstanceInfo, l ∈ [infoA, infoB] ∧ l.instance_id = "a" ∧
      Load.leb (computeInstanceLoadAfterMigrate calNegInf l true)
        (Load.val 3) = true) :=
  ⟨by decide, by decide,
   balanced_threshold_gate_precedes_sentinel (Load.val 3) calNegInf
     [infoA, infoB] "b" "a" (by decide) (fun i hx => Load.noConfusion hx)
     (by decide)⟩

/-- C3: when `enable_prefill_migrate` is false, a MigrationScheduler
constructed with any `check_migrate_policy` string is the very
scheduler constructed with "balanced" — in particular construction
never fails and `check_migrate()` returns the same pair list on every
registry snapshot; when `enable_prefill_migrate` is true the configured
policy name is resolved through the factory and used. -/
theorem migration_policy_resolution (name : String) (thr : Load)
    (cal : InstanceLoadCalculator) :
    (cal.enable_prefill_migrate = false →
      mkMigrationScheduler name thr cal =
        mkMigrationScheduler "balanced" thr cal ∧
      ∀ d : InfoDict,
        (mkMigrationScheduler name thr cal).map
          (fun ms => (MigrationScheduler.check_migrate_run
            (ms.update_instance_infos d)).1) =
        (mkMigrationScheduler "balanced" thr cal).map
          (fun ms => (MigrationScheduler.check_migrate_run
            (ms.update_instance_infos d)).1)) ∧
    (cal.enable_prefill_migrate = true →
      (mkMigrationScheduler name thr cal).map
          MigrationScheduler.check_migrate_policy =
        CheckMigratePolicyFactory.get_policy name) := by
  constructor
  · intro h
    have hmk : mkMigrationScheduler name thr cal =
        mkMigrationScheduler "balanced" thr cal := by
      simp [mkMigrationScheduler, h, CheckMigratePolicyFactory.get_policy]
    exact ⟨hmk, fun d => by rw [hmk]⟩
  · intro h
    simp only [mkMigrationScheduler, h, Bool.not_true, Bool.false_eq_true,
      if_false]
    cases hg : CheckMigratePolicyFactory.get_policy name <;> simp [hg]

/-- C3 witness: with prefill migrate disabled, the scheduler configured
with "prefill_constrained" is the scheduler configured with
"balanced". -/
theorem migration_policy_resolution_witness :
    calZeroF.enable_prefill_migrate = false ∧
    mkMigrationScheduler "prefill_constrained" (Load.val 3) calZeroF =
      mkMigrationScheduler "balanced" (Load.val 3) calZeroF :=
  ⟨rfl,
   ((migration_policy_resolution "prefill_constrained" (Load.val 3)
     calZeroF).1 rfl).1⟩

/-- C6 counterexample: with `enable_prefill_migrate = false`,
constructing a MigrationScheduler with the unknown policy name "bogus"
succeeds — the configured name is never looked up, so no error is
raised at construction time. -/
theorem unknown_policy_name_no_error :
    (mkMigrationScheduler "bogus" (Load.val 3) calZeroF).isSome = true := by
  rfl

/-- C6 amended: when `enable_prefill_migrate` is true, construction
raises exactly for policy names outside {balanced, prefill_constrained,
prefill_relaxed}; when it is false, the configured name is ignored and
construction succeeds for every name. -/
theorem unknown_policy_name_raises_iff (name : String) (thr : Load)
    (cal : InstanceLoadCalculator) :
    (cal.enable_prefill_migrate = true →
      (mkMigrationScheduler name thr cal = none ↔
        name ≠ "balanced" ∧ name ≠ "prefill_constrained" ∧
          name ≠ "prefill_relaxed")) ∧
    (cal.enable_prefill_migrate = false →
      (mkMigrationScheduler name thr cal).isSome = true) := by
  constructor
  · intro h
    simp only [mkMigrationScheduler, CheckMigratePolicyFactory.get_policy, h,
      Bool.not_true, Bool.false_eq_true, if_false]
    by_cases h1 : name = "balanced" <;>
      by_cases h2 : name = "prefill_constrained" <;>
        by_cases h3 : name = "prefill_relaxed" <;>
          simp [h1, h2, h3]
  · intro h
    simp [mkMigrationScheduler, CheckMigratePolicyFactory.get_policy, h]

/-- C6 witness: with prefill migrate enabled, the unknown name "bogus"
makes construction fail. -/
theorem unknown_policy_name_raises_iff_witness :
    mkMigrationScheduler "bogus" (Load.val 3) calZeroT = none :=
  ((unknown_policy_name_raises_iff "bogus" (Load.val 3) calZeroT).1
    rfl).mpr ⟨by decide, by decide, by decide⟩

/-- C9: `GlobalScheduler.check_migrate` is read-only on the registry:
it leaves the `instance_info` dict (hence every field of every stored
InstanceInfo), the `instance_id_set` and `num_instance` unchanged — the
balanced policy's load projection works on a copy, and only the
migration sub-scheduler's snapshot fields are refreshed. -/
theorem check_migrate_read_only (s : GSState) :
    (GSState.check_migrate s).2.instance_info = s.instance_info ∧
    (GSState.check_migrate s).2.instance_id_set = s.instance_id_set ∧
    (GSState.check_migrate s).2.num_instance = s.num_instance :=
  ⟨rfl, rfl, rfl⟩

/-! Preservation of the registry invariant by each public operation. -/

theorem dictKeys_length (d : InfoDict) : (dictKeys d).length = d.length :=
  List.length_map _ _

theorem WF_mkGlobalScheduler (cfg : GlobalSchedulerConfig)
    (load_metric_fn : InstanceInfo → LoadAction → Load) (s0 : GSState)
    (h : mkGlobalScheduler cfg load_metric_fn = some s0) : s0.WF := by
  unfold mkGlobalScheduler at h
  dsimp only at h
  split at h
  · rw [Option.some_inj] at h
    subst h
    exact ⟨rfl, rfl, rfl, List.nodup_nil⟩
  · simp at h

theorem WF_update_instance_infos (s : GSState) (batch : List InstanceInfo)
    (h : s.WF) : (s.update_instance_infos batch).WF := by
  obtain ⟨h1, h2, h3, h4⟩ := h
  have hk := dictKeys_foldl_ingest s.instance_load_calculator batch
    s.instance_info
  refine ⟨h1, ?_, ?_, ?_⟩
  · calc s.instance_id_set.card = s.instance_info.length := h2
    _ = (dictKeys s.instance_info).length := (dictKeys_length _).symm
    _ = (dictKeys (batch.foldl (ingestInstanceInfo s.instance_load_calculator)
          s.instance_info)).length := by rw [hk]
    _ = (batch.foldl (ingestInstanceInfo s.instance_load_calculator)
          s.instance_info).length := dictKeys_length _
  · show s.instance_id_set = _
    rw [show dictKeys (GSState.update_instance_infos s batch).instance_info
        = dictKeys s.instance_info from hk]
    exact h3
  · show (dictKeys _).Nodup
    rw [show dictKeys (GSState.update_instance_infos s batch).instance_info
        = dictKeys s.instance_info from hk]
    exact h4

theorem WF_dispatch (s : GSState) (h : s.WF) : (GSState.dispatch s).2.WF := by
  obtain ⟨h1, h2, h3, h4⟩ := h
  unfold GSState.dispatch
  dsimp only
  cases hres : ((s.dispatch_scheduler.update_instance_infos
      s.instance_info).dispatch_run).1 with
  | none =>
    simp only [hres]
    exact ⟨h1, h2, h3, h4⟩
  | some chosen =>
    simp only [hres]
    refine ⟨h1, ?_, ?_, ?_⟩
    · simpa [bumpDispatched] using h2
    · show s.instance_id_set = _
      rw [show dictKeys (bumpDispatched _ s.instance_info)
          = dictKeys s.instance_info from dictKeys_bumpDispatched _ _]
      exact h3
    · show (dictKeys _).Nodup
      rw [show dictKeys (bumpDispatched _ s.instance_info)
          = dictKeys s.instance_info from dictKeys_bumpDispatched _ _]
      exact h4

theorem WF_check_migrate (s : GSState) (h : s.WF) :
    (GSState.check_migrate s).2.WF := by
  obtain ⟨h1, h2, h3, h4⟩ := h
  exact ⟨h1, h2, h3, h4⟩

theorem WF_check_scale (s : GSState) (h : s.WF) :
    (GSState.check_scale s).2.WF := by
  obtain ⟨h1, h2, h3, h4⟩ := h
  exact ⟨h1, h2, h3, h4⟩

theorem WF_scale_up_one (s : GSState) (ins_id : String) (h : s.WF) :
    (s.scale_up_one ins_id).WF := by
  obtain ⟨h1, h2, h3, h4⟩ := h
  unfold GSState.scale_up_one
  by_cases hmem : (dictLookup s.instance_info ins_id).isSome = true
  · rw [if_pos hmem]
    exact ⟨h1, h2, h3, h4⟩
  · have hnotkeys : ins_id ∉ dictKeys s.instance_info := fun hc =>
      hmem ((dictLookup_isSome_iff _ _).mpr hc)
    have hnotset : ins_id ∉ s.instance_id_set := by
      rw [h3]
      simpa [List.mem_toFinset] using hnotkeys
    rw [if_neg hmem]
    unfold GSState.add_instance_broadcast
    dsimp only
    have hins := dictInsert_not_mem s.instance_info ins_id
      { ScaleScheduler.get_empty_instance_info with instance_id := ins_id }
      hnotkeys
    refine ⟨rfl, ?_, ?_, ?_⟩
    · rw [Finset.card_insert_of_not_mem hnotset, hins, List.length_append,
        h2]
      rfl
    · rw [hins]
      show insert ins_id s.instance_id_set = _
      rw [h3]
      simp [dictKeys, Finset.insert_eq, Finset.union_comm]
    · rw [hins]
      simp only [dictKeys, List.map_append, List.nodup_append]
      refine ⟨h4, by simp, ?_⟩
      intro a ha hb
      simp at hb
      subst hb
      exact hnotkeys ha

theorem WF_scale_down_one (s : GSState) (ins_id : String) (h : s.WF) :
    (s.scale_down_one ins_id).WF := by
  obtain ⟨h1, h2, h3, h4⟩ := h
  unfold GSState.scale_down_one
  by_cases hmem : (dictLookup s.instance_info ins_id).isSome = true
  · have hkeys : ins_id ∈ dictKeys s.instance_info :=
      (dictLookup_isSome_iff _ _).mp hmem
    have hset : ins_id ∈ s.instance_id_set := by
      rw [h3]
      simpa [List.mem_toFinset] using hkeys
    rw [if_pos hmem]
    unfold GSState.remove_instance_broadcast
    dsimp only
    have hkerase := dictKeys_dictErase s.instance_info ins_id
    have hnodup' : (dictKeys (dictErase s.instance_info ins_id)).Nodup := by
      rw [hkerase]
      exact h4.filter _
    have htofin : (dictKeys (dictErase s.instance_info ins_id)).toFinset
        = s.instance_id_set.erase ins_id := by
      rw [hkerase, h3]
      ext a
      simp [bne_iff_ne, List.mem_toFinset, Finset.mem_erase, and_comm]
    refine ⟨rfl, ?_, htofin.symm, hnodup'⟩
    have hlen : (dictErase s.instance_info ins_id).length
        = s.instance_info.length - 1 := by
      rw [← dictKeys_length, ← List.toFinset_card_of_nodup hnodup', htofin,
        Finset.card_erase_of_mem hset, h2]
    rw [Finset.card_erase_of_mem hset, h2, hlen]
  · rw [if_neg hmem]
    exact ⟨h1, h2, h3, h4⟩

theorem WF_scale_up (s : GSState) (ids : List String) (h : s.WF) :
    (s.scale_up ids).WF := by
  induction ids generalizing s with
  | nil => exact h
  | cons i rest ih =>
    show ((s.scale_up_one i).scale_up rest).WF
    exact ih _ (WF_scale_up_one s i h)

theorem WF_scale_down (s : GSState) (ids : List String) (h : s.WF) :
    (s.scale_down ids).WF := by
  induction ids generalizing s with
  | nil => exact h
  | cons i rest ih =>
    show ((s.scale_down_one i).scale_down rest).WF
    exact ih _ (WF_scale_down_one s i h)

/-- C5: the registry invariant — `num_instance` equals the cardinality
of `instance_id_set`, which equals the number of registry entries, and
`instance_id_set` is exactly the key set of the registry — holds for a
freshly constructed GlobalScheduler and is preserved by each of the six
public operations (`update_instance_infos`, `dispatch`,
`check_migrate`, `check_scale`, `scale_up`, `scale_down`), so it holds
after every public operation on a reachable state. -/
theorem global_scheduler_registry_invariant :
    (∀ (cfg : GlobalSchedulerConfig)
        (load_metric_fn : InstanceInfo → LoadAction → Load) (s0 : GSState),
      mkGlobalScheduler cfg load_metric_fn = some s0 → s0.WF) ∧
    (∀ (s : GSState) (batch : List InstanceInfo), s.WF →
      (s.update_instance_infos batch).WF) ∧
    (∀ s : GSState, s.WF → (GSState.dispatch s).2.WF) ∧
    (∀ s : GSState, s.WF → (GSState.check_migrate s).2.WF) ∧
    (∀ s : GSState, s.WF → (GSState.check_scale s).2.WF) ∧
    (∀ (s : GSState) (ids : List String), s.WF → (s.scale_up ids).WF) ∧
    (∀ (s : GSState) (ids : List String), s.WF → (s.scale_down ids).WF) :=
  ⟨WF_mkGlobalScheduler, WF_update_instance_infos, WF_dispatch,
   WF_check_migrate, WF_check_scale, WF_scale_up, WF_scale_down⟩

/-- C5 witness: the empty test state satisfies the invariant, and so
does the state after admitting instance `a` through `scale_up`. -/
theorem global_scheduler_registry_invariant_witness :
    GSState.WF gsTest ∧ (gsTest.scale_up ["a"]).WF :=
  ⟨by decide,
   global_scheduler_registry_invariant.2.2.2.2.2.1 gsTest ["a"] (by decide)⟩

/-- C7 counterexample: on a registry already containing `a`,
`scale_up(["a"])` is a no-op (present ids are ignored) but the
subsequent `scale_down(["a"])` deletes the pre-existing entry, so the
round trip does not restore the registry. -/
theorem scale_up_down_roundtrip_counterexample :
    ((gsTestA.scale_up ["a"]).scale_down ["a"]).instance_info
      ≠ gsTestA.instance_info := by decide

/-- C7 amended: for an id that is not yet a registry key (on a
well-formed state), `scale_up([id])` followed by `scale_down([id])`
restores the registry — the `instance_info` dict, the
`instance_id_set` and `num_instance` — to its prior state. -/
theorem scale_up_down_roundtrip (s : GSState) (ins_id : String) (hwf : s.WF)
    (hfresh : dictLookup s.instance_info ins_id = none) :
    ((s.scale_up [ins_id]).scale_down [ins_id]).instance_info
        = s.instance_info ∧
    ((s.scale_up [ins_id]).scale_down [ins_id]).instance_id_set
        = s.instance_id_set ∧
    ((s.scale_up [ins_id]).scale_down [ins_id]).num_instance
        = s.num_instance := by
  obtain ⟨h1, h2, h3, h4⟩ := hwf
  have hnotsome : ¬((dictLookup s.instance_info ins_id).isSome = true) := by
    rw [hfresh]
    simp
  have hnotkeys : ins_id ∉ dictKeys s.instance_info := fun hc =>
    hnotsome ((dictLookup_isSome_iff _ _).mpr hc)
  have hnotset : ins_id ∉ s.instance_id_set := by
    rw [h3]
    simpa [List.mem_toFinset] using hnotkeys
  have hstep : (s.scale_up [ins_id]).scale_down [ins_id]
      = GSState.scale_down_one (GSState.scale_up_one s ins_id) ins_id := rfl
  rw [hstep]
  unfold GSState.scale_up_one
  rw [if_neg hnotsome]
  unfold GSState.add_instance_broadcast
  unfold GSState.scale_down_one
  dsimp only
  rw [if_pos (by rw [dictLookup_dictInsert_self]; rfl)]
  unfold GSState.remove_instance_broadcast
  dsimp only
  refine ⟨?_, Finset.erase_insert hnotset, ?_⟩
  · rw [dictInsert_not_mem _ _ _ hnotkeys,
      dictErase_append_single _ _ _ hnotkeys]
  · rw [Finset.erase_insert hnotset, ← h1]

/-- C7 witness: on the empty well-formed state, admitting and removing
`a` restores the registry dict. -/
theorem scale_up_down_roundtrip_witness :
    GSState.WF gsTest ∧ dictLookup gsTest.instance_info "a" = none ∧
    ((gsTest.scale_up ["a"]).scale_down ["a"]).instance_info
      = gsTest.instance_info :=
  ⟨by decide, rfl, (scale_up_down_roundtrip gsTest "a" (by decide) rfl).1⟩

theorem foldl_ingest_lookup (cal : InstanceLoadCalculator)
    (batch : List InstanceInfo) :
    ∀ d : InfoDict, (batch.map InstanceInfo.instance_id).Nodup →
    (∀ i x,
      cal.compute_instance_load { i with instance_load_dispatch_scale := x }
        LoadAction.migrate = cal.compute_instance_load i LoadAction.migrate) →
    ∀ info ∈ batch, (dictLookup d info.instance_id).isSome = true →
      dictLookup (batch.foldl (ingestInstanceInfo cal) d) info.instance_id =
        some { info with
                 instance_load_dispatch_scale :=
                   cal.compute_instance_load info LoadAction.dispatch
                 instance_load_migrate :=
                   cal.compute_instance_load info LoadAction.migrate } := by
  induction batch with
  | nil =>
    intro d _ _ info hmem
    exact absurd hmem (by simp)
  | cons b rest ih =>
    intro d hnodup hcal info hmem hsome
    rw [List.map_cons, List.nodup_cons] at hnodup
    obtain ⟨hbnotin, hnodup'⟩ := hnodup
    rcases List.mem_cons.mp hmem with hb | hr
    · subst hb
      show dictLookup (rest.foldl (ingestInstanceInfo cal)
        (ingestInstanceInfo cal d info)) info.instance_id = _
      rw [dictLookup_foldl_ingest_not_mem cal rest _ info.instance_id hbnotin]
      unfold ingestInstanceInfo
      rw [if_pos hsome]
      dsimp only
      rw [dictLookup_dictInsert_self, hcal]
    · have hsome' : (dictLookup (ingestInstanceInfo cal d b)
          info.instance_id).isSome = true := by
        rw [dictLookup_isSome_iff, dictKeys_ingest]
        exact (dictLookup_isSome_iff d info.instance_id).mp hsome
      exact ih (ingestInstanceInfo cal d b) hnodup' hcal info hr hsome'

/-- C4 counterexample: a batch carrying two heartbeat records for the
same known id `a`.  The final registry entry is built from the second
record, so the claim's postcondition fails for the first record even
though its id is a registry key. -/
theorem update_instance_infos_counterexample :
    (dictLookup gsTestA.instance_info infoHeart1.instance_id).isSome
      = true ∧
    dictLookup
        (gsTestA.update_instance_infos [infoHeart1, infoHeart2]).instance_info
        infoHeart1.instance_id ≠
      some { infoHeart1 with
               instance_load_dispatch_scale :=
                 gsTestA.instance_load_calculator.compute_instance_load
                   infoHeart1 LoadAction.dispatch
               instance_load_migrate :=
                 gsTestA.instance_load_calculator.compute_instance_load
                   infoHeart1 LoadAction.migrate } := by
  constructor
  · decide
  · decide

/-- C4 amended: for every batch whose instance ids are pairwise
distinct, and a calculator whose migrate load does not read the stored
dispatch-scale scalar (the code writes the dispatch scalar onto the
record before computing the migrate load): each batch record with a
registered id becomes the registry entry with both load scalars
recomputed; records with unknown ids are dropped, and the call adds no
key and removes no key (and, being total, raises no error). -/
theorem update_instance_infos_spec (s : GSState) (batch : List InstanceInfo)
    (hnodup : (batch.map InstanceInfo.instance_id).Nodup)
    (hcal : ∀ i x,
      s.instance_load_calculator.compute_instance_load
          { i with instance_load_dispatch_scale := x } LoadAction.migrate =
        s.instance_load_calculator.compute_instance_load i
          LoadAction.migrate) :
    (∀ info ∈ batch,
      (dictLookup s.instance_info info.instance_id).isSome = true →
      dictLookup (s.update_instance_infos batch).instance_info
          info.instance_id =
        some { info with
                 instance_load_dispatch_scale :=
                   s.instance_load_calculator.compute_instance_load info
                     LoadAction.dispatch
                 instance_load_migrate :=
                   s.instance_load_calculator.compute_instance_load info
                     LoadAction.migrate }) ∧
    dictKeys (s.update_instance_infos batch).instance_info =
      dictKeys s.instance_info := by
  constructor
  · intro info hmem hsome
    exact foldl_ingest_lookup s.instance_load_calculator batch
      s.instance_info hnodup hcal info hmem hsome
  · exact dictKeys_foldl_ingest s.instance_load_calculator batch
      s.instance_info

/-- C4 witness: a singleton batch for the registered id `a` overwrites
the entry with the incoming record carrying recomputed load scalars,
and the key set is unchanged. -/
theorem update_instance_infos_spec_witness :
    (dictLookup gsTestA.instance_info infoHeart1.instance_id).isSome
      = true ∧
    dictLookup (gsTestA.update_instance_infos [infoHeart1]).instance_info
        infoHeart1.instance_id =
      some { infoHeart1 with
               instance_load_dispatch_scale :=
                 gsTestA.instance_load_calculator.compute_instance_load
                   infoHeart1 LoadAction.dispatch
               instance_load_migrate :=
                 gsTestA.instance_load_calculator.compute_instance_load
                   infoHeart1 LoadAction.migrate } :=
  ⟨by decide,
   (update_instance_infos_spec gsTestA [infoHeart1] (by decide)
     (fun i x => rfl)).1 infoHeart1 (by decide) (by decide)⟩
